import Mathlib

/-!
Verification development for the light-adaptive curtain controller firmware.

The repository ships three Arduino firmware variants:
* v2.1 "Spinning Motor" (second half of `curtain_control.ino`): light smoothing,
  calibration with EEPROM persistence, a motor state machine with position
  tracking and a 30 s safety timeout. Modelled below with the `spin` prefix.
* v2.3 "Enhanced Control" (first half of `curtain_control.ino`): auto/manual
  modes, threshold persistence, manual timed open/close. Modelled with the
  `ctl` prefix.
* v2.0 (`arduino_curtain_enhanced.ino`): directional-pin variant. Modelled
  with the `e20` prefix.

C `int` values are embedded as `Int` (all quantities stay far below 2^15, so
AVR overflow never occurs on the modelled paths); C integer division, which
truncates toward zero, is `Int.tdiv`; `millis()` timestamps are `Nat` and the
unsigned 32-bit subtraction `now - start` is `elapsedMs`. Arduino's `map`,
whose division faults (undefined behaviour on AVR) when the input range is
degenerate, is embedded as the `Option`-valued `mapArd`, `none` marking the
unguarded division by zero. Serial output is modelled as the list of emitted
lines, one `String` per `println`-terminated line.
-/

/-- Arduino `isspace` characters removed by `String::trim`:
space, `\t`, `\n`, `\v` (11), `\f` (12), `\r`. -/
def isArdSpace (c : Char) : Bool :=
  c = ' ' || c = '\t' || c = '\n' || c = Char.ofNat 11 || c = Char.ofNat 12 || c = '\r'

/-- Arduino `String::trim`: drop `isspace` characters from both ends. -/
def ardTrim (cs : List Char) : List Char :=
  ((cs.dropWhile isArdSpace).reverse.dropWhile isArdSpace).reverse

/-- Arduino `String::toUpperCase` (ASCII). -/
def ardUpper (cs : List Char) : List Char :=
  cs.map Char.toUpper

/-- Accumulating decimal-digit scan used by `atol`: consumes leading digits. -/
def digitsAcc : List Char → Int → Int
  | c :: cs, acc => if c.isDigit then digitsAcc cs (acc * 10 + (c.toNat - 48 : Nat)) else acc
  | [], acc => acc

/-- Arduino `String::toInt` (= C `atol`): skip leading whitespace, optional
sign, then leading decimal digits; `0` when no digits are present. -/
def ardToInt (cs : List Char) : Int :=
  match cs.dropWhile isArdSpace with
  | '-' :: rest => - digitsAcc rest 0
  | '+' :: rest => digitsAcc rest 0
  | rest => digitsAcc rest 0

/-- The parse step of `processCommand`: after trim/upper-case, split at the
first `':'` when its index is positive (`colonPos > 0`), exactly as
`indexOf`/`substring` do in the source; otherwise the whole line is the
command and the parameter is empty. -/
def splitColon (cs : List Char) : List Char × List Char :=
  match cs.findIdx? (· = ':') with
  | some i => if 0 < i then (cs.take i, cs.drop (i + 1)) else (cs, [])
  | none => (cs, [])

/-- Arduino `constrain(x, lo, hi)`. -/
def constrain (x lo hi : Int) : Int :=
  if x < lo then lo else if hi < x then hi else x

/-- Arduino `map(x, inMin, inMax, outMin, outMax)`:
`(x - inMin) * (outMax - outMin) / (inMax - inMin) + outMin` with C `long`
division (truncation toward zero, `Int.tdiv`). The division is NOT guarded in
the source; `none` models the undefined division by zero when
`inMax = inMin`. -/
def mapArd (x inMin inMax outMin outMax : Int) : Option Int :=
  if inMax - inMin = 0 then none
  else some (Int.tdiv ((x - inMin) * (outMax - outMin)) (inMax - inMin) + outMin)

/-- Unsigned 32-bit `millis()` subtraction `now - start`. -/
def elapsedMs (now start : Nat) : Nat :=
  (now + 4294967296 - start) % 4294967296

/-- `EEPROM.read`: cells hold bytes. -/
def eepromRead (e : Nat → Nat) (a : Nat) : Nat :=
  e a % 256

/-- `EEPROM.write` at one address. -/
def eepromWrite (e : Nat → Nat) (a v : Nat) : Nat → Nat :=
  fun x => if x = a then v else e x

/-- Arduino `lowByte` of a (non-negative) 16-bit value. -/
def lowByte (x : Int) : Nat :=
  x.toNat % 256

/-- Arduino `highByte` of a (non-negative) 16-bit value. -/
def highByte (x : Int) : Nat :=
  x.toNat / 256 % 256

/-- Arduino `word(hi, lo)`. -/
def wordOf (hi lo : Nat) : Int :=
  (hi % 256) * 256 + lo % 256

/-- `enum MotorState` of the firmware. -/
inductive MotorState
  | stopped
  | opening
  | closing
  deriving DecidableEq

/-- `enum CurtainPosition` of the firmware (`posPart` is `POSITION_PARTIAL`). -/
inductive CurtainPosition
  | posUnknown
  | posOpen
  | posClosed
  | posPart
  deriving DecidableEq

/-- Global state of the v2.1 "Spinning Motor" firmware (second half of
`curtain_control.ino`): light-filter ring buffer (`LIGHT_SAMPLES = 10`),
calibration bounds, motor state machine, and the EEPROM contents.
`motorPinValue` records the last `analogWrite(MOTOR_PIN, ·)` drive value. -/
structure SpinState where
  lightReadings : List Int
  lightReadIndex : Nat
  lightTotal : Int
  lightAverage : Int
  lightMin : Int
  lightMax : Int
  isCalibrated : Bool
  motorState : MotorState
  curtainPosition : CurtainPosition
  motorStartTime : Nat
  currentMotorSpeed : Int
  motorPinValue : Int
  eeprom : Nat → Nat

/-- `readLightSensor()` of v2.1 fed with one raw sample: subtract the oldest
slot, store the new sample, add it, advance the index mod 10, recompute the
average with truncating division, and emit the `LIGHT:` line. -/
def spinReadLight (raw : Int) (s : SpinState) : SpinState × List String :=
  let t1 := s.lightTotal - s.lightReadings.getD s.lightReadIndex 0
  let rs := s.lightReadings.set s.lightReadIndex raw
  let t2 := t1 + raw
  let idx := (s.lightReadIndex + 1) % 10
  let avg := Int.tdiv t2 10
  ({ s with lightReadings := rs, lightReadIndex := idx, lightTotal := t2, lightAverage := avg },
   ["LIGHT:" ++ toString avg])

/-- `getPercentageLight()` of v2.1: uncalibrated readings map through the full
[0,1023] range; calibrated readings map through `lightMin`/`lightMax` (an
unguarded division by zero when the two coincide) and are then constrained to
[0,100]. -/
def spinGetPercentage (s : SpinState) : Option Int :=
  if s.isCalibrated = false then
    mapArd s.lightAverage 0 1023 0 100
  else
    (mapArd s.lightAverage s.lightMin s.lightMax 0 100).map (fun p => constrain p 0 100)

/-- `openCurtain()` of v2.1. -/
def spinOpenCurtain (now : Nat) (s : SpinState) : SpinState × List String :=
  if s.curtainPosition = CurtainPosition.posOpen then
    (s, ["STATUS:Already open"])
  else
    ({ s with
        motorPinValue := 255, currentMotorSpeed := 255,
        motorState := MotorState.opening, motorStartTime := now,
        curtainPosition := CurtainPosition.posPart },
     ["MOTOR:OPENING at speed " ++ toString (255 : Int), "POSITION:OPENING"])

/-- `closeCurtain()` of v2.1. -/
def spinCloseCurtain (now : Nat) (s : SpinState) : SpinState × List String :=
  if s.curtainPosition = CurtainPosition.posClosed then
    (s, ["STATUS:Already closed"])
  else
    ({ s with
        motorPinValue := 128, currentMotorSpeed := 128,
        motorState := MotorState.closing, motorStartTime := now,
        curtainPosition := CurtainPosition.posPart },
     ["MOTOR:CLOSING at speed " ++ toString (128 : Int), "POSITION:CLOSING"])

/-- `stopMotor()` of v2.1: captures `previousState` before zeroing the drive
and overwriting `motorState`, then resolves the position from the captured
previous state. -/
def spinStopMotor (s : SpinState) : SpinState × List String :=
  let previousState := s.motorState
  let s1 := { s with
                motorPinValue := 0, currentMotorSpeed := 0,
                motorState := MotorState.stopped }
  if previousState = MotorState.opening then
    ({ s1 with curtainPosition := CurtainPosition.posOpen },
     ["MOTOR:STOPPED", "POSITION:OPEN"])
  else if previousState = MotorState.closing then
    ({ s1 with curtainPosition := CurtainPosition.posClosed },
     ["MOTOR:STOPPED", "POSITION:CLOSED"])
  else
    (s1, ["MOTOR:STOPPED"])

/-- `setMotorSpeed(speedPercent)` of v2.1: maps the constrained percentage to
a PWM value, scales the active drive while opening (half of it while closing),
and is a no-op apart from the status line while stopped. -/
def spinSetMotorSpeed (speedPercent : Int) (s : SpinState) : Option (SpinState × List String) := do
  let pwmValue ← mapArd (constrain speedPercent 0 100) 0 100 0 255
  let headline := "MOTOR_SPEED_SET:" ++ toString speedPercent ++ "% (PWM:" ++ toString pwmValue ++ ")"
  if s.motorState = MotorState.opening then
    pure ({ s with currentMotorSpeed := pwmValue, motorPinValue := pwmValue }, [headline])
  else if s.motorState = MotorState.closing then
    let half := Int.tdiv pwmValue 2
    pure ({ s with currentMotorSpeed := half, motorPinValue := half }, [headline])
  else
    pure (s, [headline, "STATUS:Motor stopped - use OPEN/CLOSE first"])

/-- The motor-timeout check at the end of `loop()` of v2.1 (the only
non-command-driven transition): while not stopped, once 30000 ms have elapsed
since `motorStartTime`, stop the motor and emit `ERROR:MOTOR_TIMEOUT`. -/
def spinCheckTimeout (now : Nat) (s : SpinState) : SpinState × List String :=
  if s.motorState ≠ MotorState.stopped then
    if 30000 ≤ elapsedMs now s.motorStartTime then
      let r := spinStopMotor s
      (r.1, r.2 ++ ["ERROR:MOTOR_TIMEOUT"])
    else (s, [])
  else (s, [])

/-- `saveCalibration()` of v2.1. -/
def spinSaveCalibration (s : SpinState) : SpinState × List String :=
  let e1 := eepromWrite s.eeprom 4 171
  let e2 := eepromWrite e1 0 (lowByte s.lightMin)
  let e3 := eepromWrite e2 1 (highByte s.lightMin)
  let e4 := eepromWrite e3 2 (lowByte s.lightMax)
  let e5 := eepromWrite e4 3 (highByte s.lightMax)
  ({ s with eeprom := e5, isCalibrated := true }, ["CALIBRATION:SAVED"])

/-- `loadCalibration()` of v2.1: the magic byte at address 4 (`0xAB` = 171)
gates whether the stored bounds are interpreted. -/
def spinLoadCalibration (s : SpinState) : SpinState × List String :=
  if eepromRead s.eeprom 4 = 171 then
    ({ s with
        lightMin := wordOf (eepromRead s.eeprom 1) (eepromRead s.eeprom 0),
        lightMax := wordOf (eepromRead s.eeprom 3) (eepromRead s.eeprom 2),
        isCalibrated := true },
     ["CALIBRATION:LOADED"])
  else
    ({ s with isCalibrated := false }, ["CALIBRATION:NOT_FOUND"])

/-- `resetCalibration()` of v2.1: restore the in-memory defaults
(`LIGHT_MIN_DEFAULT = 50`, `LIGHT_MAX_DEFAULT = 950`) and clear only the
magic byte in EEPROM. -/
def spinResetCalibration (s : SpinState) : SpinState × List String :=
  ({ s with
      lightMin := 50, lightMax := 950, isCalibrated := false,
      eeprom := eepromWrite s.eeprom 4 0 },
   ["CALIBRATION:RESET"])

/-- `setup()` of v2.1: globals at their initialisers, the light buffer
pre-filled from the first ten boot samples (`init`, padded with 0 like the
zero-initialised array when fewer are supplied), the running total and
average established, then `loadCalibration()` and the banner lines. -/
def spinBoot (e : Nat → Nat) (init : List Int) : SpinState × List String :=
  let readings := (init ++ List.replicate 10 0).take 10
  let total := readings.sum
  let s0 : SpinState :=
    { lightReadings := readings, lightReadIndex := 0, lightTotal := total,
      lightAverage := Int.tdiv total 10,
      lightMin := 50, lightMax := 950, isCalibrated := false,
      motorState := MotorState.stopped, curtainPosition := CurtainPosition.posUnknown,
      motorStartTime := 0, currentMotorSpeed := 0, motorPinValue := 0, eeprom := e }
  let r := spinLoadCalibration s0
  (r.1, r.2 ++
    ["READY:Arduino Curtain Control v2.1 (Spinning Motor)",
     "CALIBRATION:" ++ (if r.1.isCalibrated then "YES" else "NO") ++
       ",MIN:" ++ toString r.1.lightMin ++ ",MAX:" ++ toString r.1.lightMax,
     "INITIAL_LIGHT:" ++ toString r.1.lightAverage])

/-- Operations of the v2.1 firmware named by the position-tracking invariant:
the motor commands, the speed command, and the timeout tick. -/
inductive SpinOp
  | cmdOpen (now : Nat)
  | cmdClose (now : Nat)
  | cmdStop
  | cmdSetSpeed (p : Int)
  | tick (now : Nat)

/-- State action of one `SpinOp` (the `none` branch of `spinSetMotorSpeed`
is unreachable since its divisor is the constant 100). -/
def applySpinOp (s : SpinState) (op : SpinOp) : SpinState :=
  match op with
  | SpinOp.cmdOpen now => (spinOpenCurtain now s).1
  | SpinOp.cmdClose now => (spinCloseCurtain now s).1
  | SpinOp.cmdStop => (spinStopMotor s).1
  | SpinOp.cmdSetSpeed p =>
      match spinSetMotorSpeed p s with
      | some r => r.1
      | none => s
  | SpinOp.tick now => (spinCheckTimeout now s).1

/-- v2.1 position-tracking invariant: a stopped motor never leaves the
position at `POSITION_PARTIAL`. -/
def spinMotorPosInv (s : SpinState) : Prop :=
  s.motorState = MotorState.stopped → s.curtainPosition ≠ CurtainPosition.posPart

/-- Light-filter invariant of v2.1: a full 10-slot buffer, an in-range index,
the running total equal to the exact buffer sum, and the average equal to the
truncating division of the total by 10. -/
def spinLightInv (s : SpinState) : Prop :=
  s.lightReadings.length = 10 ∧ s.lightReadIndex < 10 ∧
  s.lightTotal = s.lightReadings.sum ∧ s.lightAverage = Int.tdiv s.lightTotal 10

/-- A concrete v2.1 state used as an explicit input by witnesses. -/
def spinState0 : SpinState :=
  { lightReadings := List.replicate 10 0, lightReadIndex := 0, lightTotal := 0,
    lightAverage := 0, lightMin := 50, lightMax := 950, isCalibrated := false,
    motorState := MotorState.stopped, curtainPosition := CurtainPosition.posUnknown,
    motorStartTime := 0, currentMotorSpeed := 0, motorPinValue := 0,
    eeprom := fun _ => 0 }

/-- Global state of the v2.3 "Enhanced Control" firmware (first half of
`curtain_control.ino`): thresholds, the 5-slot light filter, auto/manual mode
flags, the manual timed-operation bookkeeping, the drive value last written to
the motor pin, and the EEPROM contents. -/
structure CtlState where
  openThreshold : Int
  closeThreshold : Int
  lightReadings : List Int
  lightReadIndex : Nat
  lightTotal : Int
  lightAverage : Int
  currentLightRaw : Int
  currentMotorSpeed : Int
  autoMode : Bool
  manualMode : Bool
  manualMotorSpeed : Int
  manualStartTime : Nat
  manualOperationActive : Bool
  manualOpenOperation : Bool
  motorPinValue : Int
  eeprom : Nat → Nat

/-- `stopMotor()` of v2.3. -/
def ctlStopMotor (s : CtlState) : CtlState × List String :=
  ({ s with
      motorPinValue := 0, currentMotorSpeed := 0, manualMotorSpeed := 0,
      manualOperationActive := false },
   ["MOTOR:STOPPED"])

/-- `saveSettings()` of v2.3: magic byte `0xCD` = 205 at address 4, threshold
bytes at addresses 0..3. -/
def ctlSaveSettings (s : CtlState) : CtlState × List String :=
  let e1 := eepromWrite s.eeprom 4 205
  let e2 := eepromWrite e1 0 (lowByte s.openThreshold)
  let e3 := eepromWrite e2 1 (highByte s.openThreshold)
  let e4 := eepromWrite e3 2 (lowByte s.closeThreshold)
  let e5 := eepromWrite e4 3 (highByte s.closeThreshold)
  ({ s with eeprom := e5 }, ["SETTINGS:SAVED"])

/-- `setAutoMode(enable)` of v2.3: switch the mode flags, always stop the
motor, persist, and report. -/
def ctlSetAutoMode (enable : Bool) (s : CtlState) : CtlState × List String :=
  let s1 := { s with autoMode := enable, manualMode := !enable }
  let r1 := ctlStopMotor s1
  let r2 := ctlSaveSettings r1.1
  (r2.1, r1.2 ++ r2.2 ++
    ["MODE:" ++ (if enable then "AUTO" else "MANUAL"),
     "MANUAL_MODE:" ++ (if !enable then "TRUE" else "FALSE")])

/-- `setOpenThreshold(n)` of v2.3. -/
def ctlSetOpenThreshold (n : Int) (s : CtlState) : CtlState × List String :=
  let s1 := { s with openThreshold := constrain n 0 1023 }
  let r := ctlSaveSettings s1
  (r.1, r.2 ++ ["OPEN_THRESHOLD:" ++ toString s1.openThreshold])

/-- `setCloseThreshold(n)` of v2.3. -/
def ctlSetCloseThreshold (n : Int) (s : CtlState) : CtlState × List String :=
  let s1 := { s with closeThreshold := constrain n 0 1023 }
  let r := ctlSaveSettings s1
  (r.1, r.2 ++ ["CLOSE_THRESHOLD:" ++ toString s1.closeThreshold])

/-- `startManualOpen()` of v2.3: guarded by manual mode, then a 3000 ms timed
open at drive 200. -/
def ctlStartManualOpen (now : Nat) (s : CtlState) : CtlState × List String :=
  if s.manualMode = false then
    (s, ["ERROR:NOT_IN_MANUAL_MODE"])
  else
    ({ s with
        manualStartTime := now, manualOperationActive := true,
        manualOpenOperation := true, manualMotorSpeed := 200,
        motorPinValue := 200, currentMotorSpeed := 200 },
     ["MANUAL_OPEN_STARTED:" ++ toString (3000 : Nat) ++ "ms"])

/-- `startManualClose()` of v2.3: guarded by manual mode, then a 6000 ms timed
close at drive 150. -/
def ctlStartManualClose (now : Nat) (s : CtlState) : CtlState × List String :=
  if s.manualMode = false then
    (s, ["ERROR:NOT_IN_MANUAL_MODE"])
  else
    ({ s with
        manualStartTime := now, manualOperationActive := true,
        manualOpenOperation := false, manualMotorSpeed := 150,
        motorPinValue := 150, currentMotorSpeed := 150 },
     ["MANUAL_CLOSE_STARTED:" ++ toString (6000 : Nat) ++ "ms"])

/-- `setMotorSpeedManual(speed)` of v2.3: mode-gated; otherwise constrain to
[0,255] and drive. -/
def ctlSetMotorSpeedManual (speed : Int) (s : CtlState) : CtlState × List String :=
  if s.manualMode = false then
    (s, ["ERROR:NOT_IN_MANUAL_MODE"])
  else
    let v := constrain speed 0 255
    ({ s with manualMotorSpeed := v, motorPinValue := v, currentMotorSpeed := v },
     ["MOTOR_SPEED:" ++ toString v])

/-- `resetSettings()` of v2.3: in-memory defaults restored, only the magic
byte cleared in EEPROM. -/
def ctlResetSettings (s : CtlState) : CtlState × List String :=
  ({ s with
      openThreshold := 300, closeThreshold := 700,
      autoMode := true, manualMode := false,
      eeprom := eepromWrite s.eeprom 4 0 },
   ["SETTINGS:RESET"])

/-- `sendStatusReport()` of v2.3 (`now` is the `millis()` uptime). -/
def ctlSendStatus (now : Nat) (s : CtlState) : CtlState × List String :=
  (s, ["STATUS:REPORT_START",
       "LIGHT:" ++ toString s.lightAverage,
       "LIGHT_RAW:" ++ toString s.currentLightRaw,
       "OPEN_THRESHOLD:" ++ toString s.openThreshold,
       "CLOSE_THRESHOLD:" ++ toString s.closeThreshold,
       "MOTOR_SPEED:" ++ toString s.currentMotorSpeed,
       "MODE:" ++ (if s.autoMode then "AUTO" else "MANUAL"),
       "UPTIME:" ++ toString now,
       "STATUS:REPORT_END"])

/-- `testMotor()` of v2.3: sweeps the drive through 64/128/192/255 and back to
0, temporarily in manual mode, then restores the saved mode flags. -/
def ctlTestMotor (s : CtlState) : CtlState × List String :=
  let wasAuto := s.autoMode
  ({ s with autoMode := wasAuto, manualMode := !wasAuto, motorPinValue := 0 },
   ["TEST:MOTOR_START",
    "TEST:Testing 25% speed...",
    "TEST:Testing 50% speed...",
    "TEST:Testing 75% speed...",
    "TEST:Testing 100% speed...",
    "TEST:Stopping motor...",
    "TEST:MOTOR_COMPLETE",
    "TEST:Restored to " ++ (if wasAuto then "AUTO" else "MANUAL")])

/-- Routing stage of `processCommand` of v2.3, after the line has been parsed
into command name and parameter; the `Option` propagates the `mapArd`
division fault (never hit: its divisor is the constant 100). -/
def ctlDispatch (now : Nat) (cmd ps : List Char) (s : CtlState) :
    Option (CtlState × List String) :=
  if cmd = "AUTO".data ∨ cmd = "AUTO_MODE".data then
    some (ctlSetAutoMode true s)
  else if cmd = "MANUAL".data ∨ cmd = "MANUAL_MODE".data then
    some (ctlSetAutoMode false s)
  else if cmd = "SET_SPEED".data then
    if 0 < ps.length then
      let speed := ardToInt ps
      if speed ≤ 100 then do
        let speed2 ← mapArd speed 0 100 0 255
        pure (ctlSetMotorSpeedManual speed2 s)
      else
        some (ctlSetMotorSpeedManual speed s)
    else
      some (s, ["ERROR:MISSING_SPEED_PARAMETER"])
  else if cmd = "STOP_MOTOR".data ∨ cmd = "STOP".data then
    some (ctlStopMotor s)
  else if cmd = "SET_OPEN_THRESHOLD".data then
    if 0 < ps.length then
      some (ctlSetOpenThreshold (ardToInt ps) s)
    else
      some (s, ["ERROR:MISSING_THRESHOLD_PARAMETER"])
  else if cmd = "SET_CLOSE_THRESHOLD".data then
    if 0 < ps.length then
      some (ctlSetCloseThreshold (ardToInt ps) s)
    else
      some (s, ["ERROR:MISSING_THRESHOLD_PARAMETER"])
  else if cmd = "OPEN_CURTAIN".data then
    if s.manualMode then
      some (ctlStartManualOpen now s)
    else
      some (s, ["ERROR:NOT_IN_MANUAL_MODE"])
  else if cmd = "CLOSE_CURTAIN".data then
    if s.manualMode then
      some (ctlStartManualClose now s)
    else
      some (s, ["ERROR:NOT_IN_MANUAL_MODE"])
  else if cmd = "READ_LIGHT".data then
    some (s, ["LIGHT:" ++ toString s.lightAverage,
              "LIGHT_RAW:" ++ toString s.currentLightRaw])
  else if cmd = "GET_STATUS".data then
    some (ctlSendStatus now s)
  else if cmd = "RESET_SETTINGS".data then
    some (ctlResetSettings s)
  else if cmd = "TEST_MOTOR".data then
    some (ctlTestMotor s)
  else if cmd = "PING".data then
    some (s, ["PONG"])
  else if cmd = "VERSION".data then
    some (s, ["VERSION:2.3-Enhanced"])
  else
    some (s, ["ERROR:UNKNOWN_COMMAND:" ++ String.mk cmd])

/-- `processCommand(command)` of v2.3: trim, upper-case, split at the first
colon, then route. -/
def ctlProcessCommand (now : Nat) (line : List Char) (s : CtlState) :
    Option (CtlState × List String) :=
  let t := ardUpper (ardTrim line)
  let p := splitColon t
  ctlDispatch now p.1 p.2 s

/-- `processSerialCommands()` of v2.3 fed with the available input bytes:
a `\n` or `\r` dispatches the buffered line when non-empty and clears the
buffer; other characters append while the buffer is below
`MAX_COMMAND_LENGTH` = 64 and are silently dropped beyond it. Returns the
remaining buffer, the final state, and all emitted lines. -/
def ctlProcChars (now : Nat) : List Char → List Char → CtlState → List String →
    Option (List Char × CtlState × List String)
  | [], buf, s, evs => some (buf, s, evs)
  | c :: cs, buf, s, evs =>
    if c = '\n' ∨ c = '\r' then
      if buf.length > 0 then do
        let r ← ctlProcessCommand now buf s
        ctlProcChars now cs [] r.1 (evs ++ r.2)
      else
        ctlProcChars now cs buf s evs
    else if buf.length < 64 then
      ctlProcChars now cs (buf ++ [c]) s evs
    else
      ctlProcChars now cs buf s evs

/-- A concrete v2.3 state: the global initialisers of the firmware
(thresholds 300/700, auto mode on, everything else zeroed). -/
def ctlState0 : CtlState :=
  { openThreshold := 300, closeThreshold := 700,
    lightReadings := List.replicate 5 0, lightReadIndex := 0, lightTotal := 0,
    lightAverage := 0, currentLightRaw := 0, currentMotorSpeed := 0,
    autoMode := true, manualMode := false, manualMotorSpeed := 0,
    manualStartTime := 0, manualOperationActive := false,
    manualOpenOperation := false, motorPinValue := 0, eeprom := fun _ => 0 }

/-- Global state of the v2.0 firmware (`arduino_curtain_enhanced.ino`):
directional pin plus a single stored speed (initialiser 255). -/
structure E20State where
  lightMin : Int
  lightMax : Int
  isCalibrated : Bool
  motorState : MotorState
  curtainPosition : CurtainPosition
  motorStartTime : Nat
  motorSpeed : Int
  motorPinValue : Int
  dirPinHigh : Bool

/-- `stopMotor()` of v2.0, modelled statement-for-statement: the code sets
`motorState = MOTOR_STOPPED` FIRST and only then tests `motorState` against
`MOTOR_OPENING`/`MOTOR_CLOSING`, so both position branches are dead — in
contrast with its own comment "Update position based on previous state". -/
def e20StopMotor (s : E20State) : E20State × List String :=
  let s1 := { s with motorPinValue := 0, motorState := MotorState.stopped }
  if s1.motorState = MotorState.opening then
    ({ s1 with curtainPosition := CurtainPosition.posOpen },
     ["MOTOR:STOPPED", "POSITION:OPEN"])
  else if s1.motorState = MotorState.closing then
    ({ s1 with curtainPosition := CurtainPosition.posClosed },
     ["MOTOR:STOPPED", "POSITION:CLOSED"])
  else
    (s1, ["MOTOR:STOPPED"])

/-- `setMotorSpeed(speed)` of v2.0: stores the constrained speed
unconditionally and only drives the pin when the motor is running. -/
def e20SetMotorSpeed (speed : Int) (s : E20State) : E20State × List String :=
  let v := constrain speed 0 255
  let s1 := { s with motorSpeed := v }
  let evs := ["MOTOR_SPEED:" ++ toString v]
  if s1.motorState ≠ MotorState.stopped then
    ({ s1 with motorPinValue := v }, evs)
  else
    (s1, evs)

/-- `openCurtain()` of v2.0: direction pin high, drive at the stored
`motorSpeed`. -/
def e20OpenCurtain (now : Nat) (s : E20State) : E20State × List String :=
  if s.curtainPosition = CurtainPosition.posOpen then
    (s, ["STATUS:Already open"])
  else
    ({ s with
        dirPinHigh := true, motorPinValue := s.motorSpeed,
        motorState := MotorState.opening, motorStartTime := now,
        curtainPosition := CurtainPosition.posPart },
     ["MOTOR:OPENING", "POSITION:OPENING"])

/-- A concrete v2.0 state with the firmware's global initialisers
(`motorSpeed = 255`, motor stopped, position unknown). -/
def e20State0 : E20State :=
  { lightMin := 50, lightMax := 950, isCalibrated := false,
    motorState := MotorState.stopped, curtainPosition := CurtainPosition.posUnknown,
    motorStartTime := 0, motorSpeed := 255, motorPinValue := 0, dirPinHigh := false }

/-- A concrete v2.1 state mid-move (opening, position partial), used as an
explicit input by witnesses. -/
def spinOpeningPart : SpinState :=
  { spinState0 with
      motorState := MotorState.opening, curtainPosition := CurtainPosition.posPart,
      currentMotorSpeed := 255, motorPinValue := 255 }

/-- Sum of an integer list after a single in-bounds slot replacement. -/
theorem sum_set_getD (l : List Int) : ∀ i : Nat, i < l.length → ∀ x : Int,
    (l.set i x).sum = l.sum - l.getD i 0 + x := by
  induction l with
  | nil => intro i h; simp at h
  | cons a t ih =>
    intro i h x
    cases i with
    | zero => simp [List.set]; ring
    | succ n =>
      simp only [List.set, List.sum_cons, List.getD_cons_succ]
      rw [ih n (by simpa using h) x]
      ring

/-- `constrain` lands in the interval when the bounds are ordered. -/
theorem constrain_mem (x lo hi : Int) (h : lo ≤ hi) :
    lo ≤ constrain x lo hi ∧ constrain x lo hi ≤ hi := by
  unfold constrain
  split_ifs with h1 h2 <;> omega

/-- Trimming a list of Arduino whitespace characters leaves nothing. -/
theorem ardTrim_eq_nil (ws : List Char)
    (h : ∀ c ∈ ws, isArdSpace c = true) : ardTrim ws = [] := by
  unfold ardTrim
  rw [List.dropWhile_eq_nil_iff.mpr h]
  simp

/-- One v2.1 sampling step preserves the light-filter invariant. -/
theorem spinLightInv_read (raw : Int) (s : SpinState) (h : spinLightInv s) :
    spinLightInv (spinReadLight raw s).1 := by
  obtain ⟨hlen, hidx, hsum, _⟩ := h
  unfold spinReadLight spinLightInv
  refine ⟨?_, ?_, ?_, rfl⟩
  · simp [List.length_set, hlen]
  · exact Nat.mod_lt _ (by norm_num)
  · simp only
    rw [sum_set_getD s.lightReadings s.lightReadIndex (by rw [hlen]; exact hidx) raw, hsum]

/-- `setup()` of v2.1 establishes the light-filter invariant. -/
theorem spinLightInv_boot (e : Nat → Nat) (init : List Int) :
    spinLightInv (spinBoot e init).1 := by
  unfold spinLightInv
  simp only [spinBoot, spinLoadCalibration]
  split
  all_goals
    refine ⟨?_, by norm_num, rfl, rfl⟩
    simp only [List.length_take, List.length_append, List.length_replicate]
    omega

/-- The light-filter invariant is preserved by any sequence of samples. -/
theorem spinLightInv_foldl (samples : List Int) : ∀ s : SpinState, spinLightInv s →
    spinLightInv (samples.foldl (fun st r => (spinReadLight r st).1) s) := by
  induction samples with
  | nil => intro s h; exact h
  | cons a t ih =>
    intro s h
    exact ih _ (spinLightInv_read a s h)

/-- `stopMotor()` of v2.1 preserves the stopped-not-partial invariant. -/
theorem spinMotorPosInv_stop (s : SpinState) (h : spinMotorPosInv s) :
    spinMotorPosInv (spinStopMotor s).1 := by
  unfold spinStopMotor
  cases hm : s.motorState with
  | stopped => intro _; exact h hm
  | opening => intro _; simp
  | closing => intro _; simp

/-- `openCurtain()` of v2.1 preserves the stopped-not-partial invariant. -/
theorem spinMotorPosInv_open (now : Nat) (s : SpinState) (h : spinMotorPosInv s) :
    spinMotorPosInv (spinOpenCurtain now s).1 := by
  unfold spinOpenCurtain
  split
  · exact h
  · intro hcontra
    simp at hcontra

/-- `closeCurtain()` of v2.1 preserves the stopped-not-partial invariant. -/
theorem spinMotorPosInv_close (now : Nat) (s : SpinState) (h : spinMotorPosInv s) :
    spinMotorPosInv (spinCloseCurtain now s).1 := by
  unfold spinCloseCurtain
  split
  · exact h
  · intro hcontra
    simp at hcontra

/-- `setMotorSpeed()` of v2.1 never changes the motor state or the position. -/
theorem spinSetMotorSpeed_preserves (p : Int) (s : SpinState) :
    ∀ r, spinSetMotorSpeed p s = some r →
      r.1.motorState = s.motorState ∧ r.1.curtainPosition = s.curtainPosition := by
  intro r hr
  unfold spinSetMotorSpeed at hr
  simp only [mapArd] at hr
  rw [if_neg (by norm_num : ¬((100 : Int) - 0 = 0))] at hr
  simp only [Option.bind_eq_bind, Option.some_bind] at hr
  split at hr
  · simp at hr
    subst hr
    exact ⟨rfl, rfl⟩
  · split at hr
    · simp at hr
      subst hr
      exact ⟨rfl, rfl⟩
    · simp at hr
      subst hr
      exact ⟨rfl, rfl⟩

/-- The timeout tick of v2.1 preserves the stopped-not-partial invariant. -/
theorem spinMotorPosInv_tick (now : Nat) (s : SpinState) (h : spinMotorPosInv s) :
    spinMotorPosInv (spinCheckTimeout now s).1 := by
  unfold spinCheckTimeout
  split
  · split
    · exact spinMotorPosInv_stop s h
    · exact h
  · exact h

/-- Every modelled v2.1 operation preserves the stopped-not-partial
invariant. -/
theorem applySpinOp_inv (s : SpinState) (op : SpinOp) (h : spinMotorPosInv s) :
    spinMotorPosInv (applySpinOp s op) := by
  cases op with
  | cmdOpen now => exact spinMotorPosInv_open now s h
  | cmdClose now => exact spinMotorPosInv_close now s h
  | cmdStop => exact spinMotorPosInv_stop s h
  | cmdSetSpeed p =>
    cases hr : spinSetMotorSpeed p s with
    | none =>
      show spinMotorPosInv (match spinSetMotorSpeed p s with | some r => r.1 | none => s)
      rw [hr]
      exact h
    | some r =>
      show spinMotorPosInv (match spinSetMotorSpeed p s with | some r => r.1 | none => s)
      rw [hr]
      obtain ⟨h1, h2⟩ := spinSetMotorSpeed_preserves p s r hr
      intro hstop
      rw [h2]
      exact h (h1 ▸ hstop)
  | tick now => exact spinMotorPosInv_tick now s h

/-- `setup()` of v2.1 establishes the stopped-not-partial invariant. -/
theorem spinMotorPosInv_boot (e : Nat → Nat) (init : List Int) :
    spinMotorPosInv (spinBoot e init).1 := by
  unfold spinMotorPosInv
  simp only [spinBoot, spinLoadCalibration]
  split
  · intro _; simp
  · intro _; simp

/-- C1: evaluating the two cited `stopMotor` implementations. In the v2.0
variant (`arduino_curtain_enhanced.ino`), stopping from `MOTOR_OPENING` with
position `POSITION_PARTIAL` leaves the position `PARTIAL` and prints no
`POSITION:` line, because the code overwrites `motorState` with
`MOTOR_STOPPED` before testing it — contradicting the claim and the code's
own comment. The v2.1 `stopMotor` does capture the previous state first and
resolves the position to `OPEN`. -/
theorem c1_v20_stop_loses_position :
    (e20StopMotor { e20State0 with
        motorState := MotorState.opening,
        curtainPosition := CurtainPosition.posPart }).1.curtainPosition
      = CurtainPosition.posPart ∧
    (e20StopMotor { e20State0 with
        motorState := MotorState.opening,
        curtainPosition := CurtainPosition.posPart }).1.motorState
      = MotorState.stopped ∧
    (e20StopMotor { e20State0 with
        motorState := MotorState.opening,
        curtainPosition := CurtainPosition.posPart }).2 = ["MOTOR:STOPPED"] ∧
    (spinStopMotor spinOpeningPart).1.curtainPosition = CurtainPosition.posOpen ∧
    (spinStopMotor spinOpeningPart).1.motorPinValue = 0 :=
  ⟨rfl, rfl, rfl, rfl, rfl⟩

/-- C2 counterexample: from the v2.1 boot state, `OPEN_CURTAIN` followed by
`CLOSE_CURTAIN` produces a direct `Opening → Closing` transition in a single
step, with no intervening stop event (`MOTOR:STOPPED` is not emitted), so a
direction reversal does NOT pass through `Stopped`. -/
theorem c2_direct_reversal_cex :
    ((spinOpenCurtain 5 (spinBoot (fun _ => 0) (List.replicate 10 0)).1).1.motorState
      = MotorState.opening) ∧
    ((spinCloseCurtain 6 (spinOpenCurtain 5 (spinBoot (fun _ => 0)
        (List.replicate 10 0)).1).1).1.motorState = MotorState.closing) ∧
    ("MOTOR:STOPPED" ∉ (spinCloseCurtain 6 (spinOpenCurtain 5 (spinBoot (fun _ => 0)
        (List.replicate 10 0)).1).1).2) :=
  ⟨rfl, rfl, by decide⟩

/-- C2 amended: in the v2.1 variant, dispatching `CLOSE_CURTAIN` while the
motor is `Opening` (position not `Closed`, which is the case during any open
move) transitions DIRECTLY to `Closing` in one step, without an intervening
stop event; the only no-op guard is `curtainPosition == POSITION_CLOSED`. -/
theorem c2_amended_direct_close (now : Nat) (s : SpinState)
    (h1 : s.motorState = MotorState.opening)
    (h2 : s.curtainPosition ≠ CurtainPosition.posClosed) :
    (spinCloseCurtain now s).1.motorState = MotorState.closing ∧
    s.motorState ≠ MotorState.stopped ∧
    "MOTOR:STOPPED" ∉ (spinCloseCurtain now s).2 := by
  have hev : (spinCloseCurtain now s).2
      = ["MOTOR:CLOSING at speed " ++ toString (128 : Int), "POSITION:CLOSING"] := by
    unfold spinCloseCurtain
    rw [if_neg h2]
  have hst : (spinCloseCurtain now s).1.motorState = MotorState.closing := by
    unfold spinCloseCurtain
    rw [if_neg h2]
  refine ⟨hst, by rw [h1]; decide, ?_⟩
  rw [hev]
  decide

/-- C2 amended, witness at a concrete mid-open state. -/
theorem c2_amended_direct_close_witness :
    spinOpeningPart.motorState = MotorState.opening ∧
    spinOpeningPart.curtainPosition ≠ CurtainPosition.posClosed ∧
    ((spinCloseCurtain 7 spinOpeningPart).1.motorState = MotorState.closing ∧
     spinOpeningPart.motorState ≠ MotorState.stopped ∧
     "MOTOR:STOPPED" ∉ (spinCloseCurtain 7 spinOpeningPart).2) :=
  ⟨rfl, by decide, c2_amended_direct_close 7 spinOpeningPart rfl (by decide)⟩

/-- C3 counterexample: with degenerate calibration bounds
`lightMin = lightMax = 500` and smoothed average 500 (inside [0,1023]),
`getPercentageLight` performs an unguarded division by zero (`none` in the
embedding) instead of returning a value in [0,100]: the division is NOT
guarded. -/
theorem c3_unguarded_divzero_cex :
    spinGetPercentage { spinState0 with
        isCalibrated := true, lightMin := 500,
        lightMax := 500, lightAverage := 500 } = none ∧
    ((0 : Int) ≤ 500 ∧ (500 : Int) ≤ 1023) :=
  ⟨rfl, by decide, by decide⟩

/-- C3 amended: for every smoothed average in [0,1023] and every calibration
state whose bounds are not degenerate (uncalibrated, or calibrated with
`lightMin ≠ lightMax`, inverted bounds included), `getPercentageLight`
returns a value in [0,100]; the degenerate calibrated `min = max` case is an
unguarded division by zero. -/
theorem c3_amended_percent_range (s : SpinState)
    (h0 : 0 ≤ s.lightAverage) (h1 : s.lightAverage ≤ 1023)
    (hcal : s.isCalibrated = true → s.lightMin ≠ s.lightMax) :
    ∃ v, spinGetPercentage s = some v ∧ 0 ≤ v ∧ v ≤ 100 := by
  unfold spinGetPercentage
  cases hc : s.isCalibrated with
  | false =>
    rw [if_pos rfl]
    unfold mapArd
    rw [if_neg (by norm_num : ¬((1023 : Int) - 0 = 0))]
    refine ⟨_, rfl, ?_, ?_⟩
    · have hd := Int.tdiv_nonneg (a := (s.lightAverage - 0) * (100 - 0)) (b := (1023 : Int) - 0)
        (by nlinarith) (by norm_num)
      omega
    · have hnn : (0 : Int) ≤ (s.lightAverage - 0) * (100 - 0) := by nlinarith
      have hnum : (s.lightAverage - 0) * (100 - 0) ≤ 102300 := by nlinarith
      have heq := Int.tdiv_eq_ediv hnn (by norm_num : (0 : Int) ≤ (1023 : Int) - 0)
      have h2 := Int.ediv_le_ediv (by norm_num : (0 : Int) < (1023 : Int) - 0) hnum
      have h3 : (102300 : Int) / (1023 - 0) = 100 := by norm_num
      omega
  | true =>
    rw [if_neg (by simp [hc])]
    have hne : s.lightMax - s.lightMin ≠ 0 := sub_ne_zero.mpr (Ne.symm (hcal hc))
    unfold mapArd
    rw [if_neg hne]
    exact ⟨_, rfl, constrain_mem _ 0 100 (by norm_num)⟩

/-- C3 amended, witness at the uncalibrated boot state. -/
theorem c3_amended_percent_range_witness :
    (0 ≤ spinState0.lightAverage) ∧ (spinState0.lightAverage ≤ 1023) ∧
    (spinState0.isCalibrated = true → spinState0.lightMin ≠ spinState0.lightMax) ∧
    (∃ v, spinGetPercentage spinState0 = some v ∧ 0 ≤ v ∧ v ≤ 100) :=
  ⟨by decide, by decide, by decide,
   c3_amended_percent_range spinState0 (by decide) (by decide) (by decide)⟩

/-- C4: for every sequence of raw samples in [0,1023] fed to the v2.1
sampling step after boot, the running total `lightTotal` equals the exact
integer sum of the 10 buffer entries after every call, independent of
sequence length, and the reported average is the truncating integer division
of the total by the sample count. -/
theorem c4_running_sum_exact (e : Nat → Nat) (init : List Int) (samples : List Int)
    (hr : ∀ r ∈ samples, 0 ≤ r ∧ r ≤ 1023) :
    (samples.foldl (fun st r => (spinReadLight r st).1) (spinBoot e init).1).lightTotal
      = (samples.foldl (fun st r => (spinReadLight r st).1)
          (spinBoot e init).1).lightReadings.sum
    ∧ (samples.foldl (fun st r => (spinReadLight r st).1) (spinBoot e init).1).lightAverage
      = Int.tdiv (samples.foldl (fun st r => (spinReadLight r st).1)
          (spinBoot e init).1).lightTotal 10 := by
  have h := spinLightInv_foldl samples _ (spinLightInv_boot e init)
  exact ⟨h.2.2.1, h.2.2.2⟩

/-- C4, witness on a concrete two-sample run. -/
theorem c4_running_sum_exact_witness :
    (∀ r ∈ ([3, 700] : List Int), 0 ≤ r ∧ r ≤ 1023) ∧
    ((([3, 700] : List Int).foldl (fun st r => (spinReadLight r st).1)
        (spinBoot (fun _ => 0) []).1).lightTotal
      = (([3, 700] : List Int).foldl (fun st r => (spinReadLight r st).1)
          (spinBoot (fun _ => 0) []).1).lightReadings.sum
     ∧ (([3, 700] : List Int).foldl (fun st r => (spinReadLight r st).1)
          (spinBoot (fun _ => 0) []).1).lightAverage
      = Int.tdiv (([3, 700] : List Int).foldl (fun st r => (spinReadLight r st).1)
          (spinBoot (fun _ => 0) []).1).lightTotal 10) :=
  ⟨by decide, c4_running_sum_exact (fun _ => 0) [] [3, 700] (by decide)⟩

/-- C5: on a v2.1 control-loop tick, if the motor is not `Stopped` and at
least 30000 ms have elapsed since `motorStartTime` (32-bit unsigned
`millis()` arithmetic), the tick forces the motor to `Stopped`, zeroes the
drive output, and emits `ERROR:MOTOR_TIMEOUT`, whichever direction was
active. -/
theorem c5_timeout_forces_stop (now : Nat) (s : SpinState)
    (h1 : s.motorState ≠ MotorState.stopped)
    (h2 : 30000 ≤ elapsedMs now s.motorStartTime) :
    (spinCheckTimeout now s).1.motorState = MotorState.stopped ∧
    (spinCheckTimeout now s).1.currentMotorSpeed = 0 ∧
    (spinCheckTimeout now s).1.motorPinValue = 0 ∧
    "ERROR:MOTOR_TIMEOUT" ∈ (spinCheckTimeout now s).2 := by
  unfold spinCheckTimeout
  rw [if_pos h1, if_pos h2]
  unfold spinStopMotor
  cases hm : s.motorState with
  | stopped => exact absurd hm h1
  | opening => simp
  | closing => simp

/-- C5, witness: an opening move started at time 0, tick at 30000 ms. -/
theorem c5_timeout_forces_stop_witness :
    spinOpeningPart.motorState ≠ MotorState.stopped ∧
    30000 ≤ elapsedMs 30000 spinOpeningPart.motorStartTime ∧
    ((spinCheckTimeout 30000 spinOpeningPart).1.motorState = MotorState.stopped ∧
     (spinCheckTimeout 30000 spinOpeningPart).1.currentMotorSpeed = 0 ∧
     (spinCheckTimeout 30000 spinOpeningPart).1.motorPinValue = 0 ∧
     "ERROR:MOTOR_TIMEOUT" ∈ (spinCheckTimeout 30000 spinOpeningPart).2) :=
  ⟨by decide, by decide,
   c5_timeout_forces_stop 30000 spinOpeningPart (by decide) (by decide)⟩

/-- C6 counterexample: a line consisting of a single space (terminated by a
newline) IS dispatched by the v2.3 interpreter and IS acknowledged with a
response line `ERROR:UNKNOWN_COMMAND:` (empty command name after trimming),
contradicting "no dispatch ... no response line is emitted". -/
theorem c6_whitespace_dispatch_cex :
    ctlProcChars 0 [' ', '\n'] [] ctlState0 []
      = some ([], ctlState0, ["ERROR:UNKNOWN_COMMAND:"]) := rfl

/-- C6 amended: an EMPTY line (bare `\n` or `\r` with an empty buffer)
produces no dispatch, no state change and no output; a NON-empty
all-whitespace buffered line is dispatched once and acknowledged with
`ERROR:UNKNOWN_COMMAND:` (empty command name), leaving the state unchanged. -/
theorem c6_amended_line_handling (now : Nat) (s : CtlState) (ws : List Char)
    (hws : ∀ c ∈ ws, c = ' ' ∨ c = '\t' ∨ c = Char.ofNat 11 ∨ c = Char.ofNat 12)
    (hne : ws ≠ []) :
    ctlProcChars now ['\n'] [] s [] = some ([], s, []) ∧
    ctlProcChars now ['\r'] [] s [] = some ([], s, []) ∧
    ctlProcessCommand now ws s = some (s, ["ERROR:UNKNOWN_COMMAND:"]) := by
  refine ⟨rfl, rfl, ?_⟩
  have htrim : ardTrim ws = [] := ardTrim_eq_nil ws (fun c hc => by
    rcases hws c hc with h | h | h | h <;> simp [isArdSpace, h])
  unfold ctlProcessCommand
  rw [htrim]
  rfl

/-- C6 amended, witness: empty line and a one-space line against the boot
state. -/
theorem c6_amended_line_handling_witness :
    (∀ c ∈ [' '], c = ' ' ∨ c = '\t' ∨ c = Char.ofNat 11 ∨ c = Char.ofNat 12) ∧
    ([' '] ≠ ([] : List Char)) ∧
    (ctlProcChars 3 ['\n'] [] ctlState0 [] = some ([], ctlState0, []) ∧
     ctlProcChars 3 ['\r'] [] ctlState0 [] = some ([], ctlState0, []) ∧
     ctlProcessCommand 3 [' '] ctlState0 = some (ctlState0, ["ERROR:UNKNOWN_COMMAND:"])) :=
  ⟨by decide, by decide, c6_amended_line_handling 3 ctlState0 [' '] (by decide) (by decide)⟩

/-- C7 counterexample: in the v2.0 variant, `setMotorSpeed(100)` while the
motor is `Stopped` changes the stored speed from its previous value 255 to
100 without driving the pin, and that stored speed IS applied on the next
move (`openCurtain` drives the pin at 100) — a pending speed, contradicting
"stored speed unchanged, no pending speed". -/
theorem c7_v20_pending_speed_cex :
    e20State0.motorState = MotorState.stopped ∧
    e20State0.motorSpeed = 255 ∧
    (e20SetMotorSpeed 100 e20State0).1.motorSpeed = 100 ∧
    (e20SetMotorSpeed 100 e20State0).1.motorPinValue = 0 ∧
    (e20OpenCurtain 3 (e20SetMotorSpeed 100 e20State0).1).1.motorPinValue = 100 :=
  ⟨rfl, rfl, rfl, rfl, rfl⟩

/-- C7 amended: in the v2.1 spinning-motor variant, `setMotorSpeed` while the
motor is `Stopped` is a no-op apart from emitting status lines — the state
(drive output and stored speed included) is returned unchanged and no pending
speed is remembered; the v2.0 variant instead stores the speed for the next
move. -/
theorem c7_amended_spin_noop (p : Int) (s : SpinState)
    (h : s.motorState = MotorState.stopped) :
    ∃ ev, spinSetMotorSpeed p s = some (s, ev) ∧
      "STATUS:Motor stopped - use OPEN/CLOSE first" ∈ ev := by
  unfold spinSetMotorSpeed
  rw [h]
  simp [mapArd]

/-- C7 amended, witness at the stopped boot state. -/
theorem c7_amended_spin_noop_witness :
    spinState0.motorState = MotorState.stopped ∧
    (∃ ev, spinSetMotorSpeed 30 spinState0 = some (spinState0, ev) ∧
      "STATUS:Motor stopped - use OPEN/CLOSE first" ∈ ev) :=
  ⟨rfl, c7_amended_spin_noop 30 spinState0 rfl⟩

/-- C8: in the v2.3 manual-duration variant, when the device is not in manual
mode, dispatching `OPEN_CURTAIN`, `CLOSE_CURTAIN`, or `SET_SPEED` with a
parameter emits exactly `ERROR:NOT_IN_MANUAL_MODE` and returns the state
completely unchanged (no motor output, no timing, no mode, no speed
change). -/
theorem c8_mode_gate_no_effect (now : Nat) (s : CtlState) (l ps : List Char)
    (hm : s.manualMode = false)
    (hparse : splitColon (ardUpper (ardTrim l)) = ("SET_SPEED".data, ps))
    (hps : ps ≠ []) :
    ctlProcessCommand now "OPEN_CURTAIN".data s = some (s, ["ERROR:NOT_IN_MANUAL_MODE"]) ∧
    ctlProcessCommand now "CLOSE_CURTAIN".data s = some (s, ["ERROR:NOT_IN_MANUAL_MODE"]) ∧
    ctlProcessCommand now l s = some (s, ["ERROR:NOT_IN_MANUAL_MODE"]) := by
  refine ⟨?_, ?_, ?_⟩
  · have hred : ctlProcessCommand now "OPEN_CURTAIN".data s
        = if s.manualMode then some (ctlStartManualOpen now s)
          else some (s, ["ERROR:NOT_IN_MANUAL_MODE"]) := rfl
    rw [hred, hm]
    simp
  · have hred : ctlProcessCommand now "CLOSE_CURTAIN".data s
        = if s.manualMode then some (ctlStartManualClose now s)
          else some (s, ["ERROR:NOT_IN_MANUAL_MODE"]) := rfl
    rw [hred, hm]
    simp
  · have hl : ctlProcessCommand now l s = ctlDispatch now "SET_SPEED".data ps s := by
      show ctlDispatch now (splitColon (ardUpper (ardTrim l))).1
            (splitColon (ardUpper (ardTrim l))).2 s
          = ctlDispatch now "SET_SPEED".data ps s
      rw [hparse]
    have hd : ctlDispatch now "SET_SPEED".data ps s
        = if 0 < ps.length then
            (if ardToInt ps ≤ 100 then
              (mapArd (ardToInt ps) 0 100 0 255).bind
                (fun v => some (ctlSetMotorSpeedManual v s))
            else some (ctlSetMotorSpeedManual (ardToInt ps) s))
          else some (s, ["ERROR:MISSING_SPEED_PARAMETER"]) := rfl
    rw [hl, hd, if_pos (List.length_pos.mpr hps)]
    have hmap : ∀ v : Int, ctlSetMotorSpeedManual v s = (s, ["ERROR:NOT_IN_MANUAL_MODE"]) := by
      intro v
      unfold ctlSetMotorSpeedManual
      rw [hm]
      simp
    by_cases hle : ardToInt ps ≤ 100
    · rw [if_pos hle]
      simp only [mapArd]
      rw [if_neg (by norm_num : ¬((100 : Int) - 0 = 0))]
      simp [hmap]
    · rw [if_neg hle, hmap]

/-- C8, witness: the three commands against the auto-mode boot state. -/
theorem c8_mode_gate_no_effect_witness :
    ctlState0.manualMode = false ∧
    splitColon (ardUpper (ardTrim "SET_SPEED:50".data)) = ("SET_SPEED".data, "50".data) ∧
    ("50".data ≠ ([] : List Char)) ∧
    (ctlProcessCommand 2 "OPEN_CURTAIN".data ctlState0
        = some (ctlState0, ["ERROR:NOT_IN_MANUAL_MODE"]) ∧
     ctlProcessCommand 2 "CLOSE_CURTAIN".data ctlState0
        = some (ctlState0, ["ERROR:NOT_IN_MANUAL_MODE"]) ∧
     ctlProcessCommand 2 "SET_SPEED:50".data ctlState0
        = some (ctlState0, ["ERROR:NOT_IN_MANUAL_MODE"])) :=
  ⟨rfl, by decide, by decide,
   c8_mode_gate_no_effect 2 ctlState0 "SET_SPEED:50".data "50".data rfl (by decide) (by decide)⟩

/-- C9: in the v2.1 variant, `resetCalibration` clears only the magic byte
(address 4) in EEPROM — every other cell, the saved numeric bytes included,
is untouched — while restoring the in-memory defaults (min 50, max 950, not
calibrated); a subsequent boot-time `loadCalibration` then reports
`CALIBRATION:NOT_FOUND` and the device runs with exactly the hard-coded
defaults, never the previously saved numeric values. -/
theorem c9_reset_then_boot_defaults (s : SpinState) (init : List Int)
    (a : Nat) (ha : a ≠ 4) :
    (spinResetCalibration s).1.eeprom 4 = 0 ∧
    (spinResetCalibration s).1.eeprom a = s.eeprom a ∧
    (spinResetCalibration s).1.lightMin = 50 ∧
    (spinResetCalibration s).1.lightMax = 950 ∧
    (spinResetCalibration s).1.isCalibrated = false ∧
    (spinBoot (spinResetCalibration s).1.eeprom init).1.lightMin = 50 ∧
    (spinBoot (spinResetCalibration s).1.eeprom init).1.lightMax = 950 ∧
    (spinBoot (spinResetCalibration s).1.eeprom init).1.isCalibrated = false ∧
    "CALIBRATION:NOT_FOUND" ∈ (spinBoot (spinResetCalibration s).1.eeprom init).2 := by
  have hmagic : eepromRead (spinResetCalibration s).1.eeprom 4 ≠ 171 := by
    simp [spinResetCalibration, eepromRead, eepromWrite]
  refine ⟨rfl, ?_, rfl, rfl, rfl, ?_, ?_, ?_, ?_⟩
  · simp [spinResetCalibration, eepromWrite, ha]
  all_goals
    simp only [spinBoot, spinLoadCalibration]
    rw [if_neg hmagic]
    try simp

/-- C9, witness: a state with previously saved calibration bytes in EEPROM,
checking address 0 (the saved low byte of the minimum) survives the reset. -/
theorem c9_reset_then_boot_defaults_witness :
    ((0 : Nat) ≠ 4) ∧
    ((spinResetCalibration { spinState0 with
        isCalibrated := true, eeprom := fun a => if a = 4 then 171 else 7 }).1.eeprom 4 = 0 ∧
     (spinResetCalibration { spinState0 with
        isCalibrated := true, eeprom := fun a => if a = 4 then 171 else 7 }).1.eeprom 0
        = (fun a : Nat => if a = 4 then (171 : Nat) else 7) 0 ∧
     (spinResetCalibration { spinState0 with
        isCalibrated := true, eeprom := fun a => if a = 4 then 171 else 7 }).1.lightMin = 50 ∧
     (spinResetCalibration { spinState0 with
        isCalibrated := true, eeprom := fun a => if a = 4 then 171 else 7 }).1.lightMax = 950 ∧
     (spinResetCalibration { spinState0 with
        isCalibrated := true, eeprom := fun a => if a = 4 then 171 else 7 }).1.isCalibrated = false ∧
     (spinBoot (spinResetCalibration { spinState0 with
        isCalibrated := true, eeprom := fun a => if a = 4 then 171 else 7 }).1.eeprom []).1.lightMin = 50 ∧
     (spinBoot (spinResetCalibration { spinState0 with
        isCalibrated := true, eeprom := fun a => if a = 4 then 171 else 7 }).1.eeprom []).1.lightMax = 950 ∧
     (spinBoot (spinResetCalibration { spinState0 with
        isCalibrated := true, eeprom := fun a => if a = 4 then 171 else 7 }).1.eeprom []).1.isCalibrated = false ∧
     "CALIBRATION:NOT_FOUND" ∈ (spinBoot (spinResetCalibration { spinState0 with
        isCalibrated := true, eeprom := fun a => if a = 4 then 171 else 7 }).1.eeprom []).2) :=
  ⟨by decide,
   c9_reset_then_boot_defaults { spinState0 with
      isCalibrated := true, eeprom := fun a => if a = 4 then 171 else 7 } [] 0 (by decide)⟩

/-- C10: every v2.1 state reachable from boot through `openCurtain`,
`closeCurtain`, `stopMotor`, `setMotorSpeed` and the timeout tick satisfies:
if the motor is `Stopped` then the position is not `Partial` (`Partial` can
hold only while a move is in progress). -/
theorem c10_stopped_never_part_inv (e : Nat → Nat) (init : List Int) (ops : List SpinOp) :
    spinMotorPosInv (ops.foldl applySpinOp (spinBoot e init).1) := by
  have hgen : ∀ (l : List SpinOp) (s : SpinState), spinMotorPosInv s →
      spinMotorPosInv (l.foldl applySpinOp s) := by
    intro l
    induction l with
    | nil => intro s h; exact h
    | cons a t ih =>
      intro s h
      exact ih _ (applySpinOp_inv s a h)
  exact hgen ops _ (spinMotorPosInv_boot e init)

/-- C10, witness on a concrete open-stop-close-tick run. -/
theorem c10_stopped_never_part_inv_witness :
    spinMotorPosInv ([SpinOp.cmdOpen 1, SpinOp.cmdStop, SpinOp.cmdClose 2,
      SpinOp.cmdSetSpeed 40, SpinOp.tick 40000].foldl applySpinOp
        (spinBoot (fun _ => 0) []).1) :=
  c10_stopped_never_part_inv (fun _ => 0) []
    [SpinOp.cmdOpen 1, SpinOp.cmdStop, SpinOp.cmdClose 2,
     SpinOp.cmdSetSpeed 40, SpinOp.tick 40000]
